import Mathlib

/-!
Shallow embedding of the download engine of the kiko-trainer repository:
`backend/civitai_downloader.py` (class `CivitAIDownloader`, method
`download_model`) and `backend/server.py` (`robust_http_request`,
`download_civitai_model`, `download_huggingface_file`, `cancel_download`,
`_validate_model_file`).

Modelling conventions: bytes are `Nat`, wall-clock time is `Nat`
milliseconds, an HTTP response body is a list of timed chunks as delivered
by `response.read(CHUNK_SIZE)`.  Python exceptions are the `PyExc` type;
the distinction between `Exception` subclasses (`DownloadError`,
`urllib.error.HTTPError`) and `asyncio.CancelledError` (which since
Python 3.8 derives from `BaseException` only) is load-bearing for the
handlers in `download_civitai_model`.
-/

/-- One chunk delivered by `response.read(CHUNK_SIZE)`: its bytes and the
wall-clock time (in ms) that `time.time()` returns as `current_time` in
that loop iteration. -/
structure Chunk where
  data : List Nat
  time : Nat
deriving Repr, DecidableEq

/-- An HTTP response as the downloader observes it: the status code, the
parsed `Content-Length` header (`none` when the header is absent), and the
body stream. -/
structure HttpResponse where
  status : Nat
  contentLength : Option Nat
  chunks : List Chunk
deriving Repr, DecidableEq

/-- Python exceptions relevant to the download paths.  `downloadError`
(the custom `DownloadError`) and `httpError` (`urllib.error.HTTPError`)
are `Exception` subclasses; `cancelled` is `asyncio.CancelledError`, which
is NOT caught by an `except Exception` clause. -/
inductive PyExc where
  | downloadError (msg : String)
  | httpError (code : Nat)
  | cancelled (msg : String)
deriving Repr, DecidableEq

/-- Python truthiness of the `total_size` variable: `None` and `0` are
falsy (`if total_size:` skips both the absent header and a header of 0). -/
def truthyOpt : Option Nat → Bool
  | none => false
  | some n => n != 0

/-- A call to `progress_callback`, reduced to the fields the claims speak
about; the floating-point percentage and MB/s speed are not modelled. -/
inductive ProgressEvent where
  | resuming (resumePos : Nat)
  | downloading (downloaded : Nat) (time : Nat)
  | completed
deriving Repr, DecidableEq

/-- Lines 123-133 of civitai_downloader.py: the mapping applied when
`opener.open` raises `urllib.error.HTTPError`.  The opener is built as
`build_opener(NoRedirection)` where `NoRedirection` subclasses
`HTTPErrorProcessor` with `http_response` returning every response
unchanged; `build_opener` therefore skips the default error processor and
`opener.open` never raises `HTTPError` for a status code.  This branch is
unreachable in the program; it is embedded because it is the stated intent
of the code for 401/403/404/429. -/
def httpErrorBranch (code : Nat) (reason : String) : PyExc :=
  if code = 401 then
    .downloadError "Authentication required. Please provide a valid API token."
  else if code = 403 then
    .downloadError "Access forbidden. The model might require special permissions."
  else if code = 404 then
    .downloadError "Model not found. The URL might be incorrect or the model was removed."
  else if code = 429 then
    .downloadError "Rate limited. Please wait before trying again."
  else
    .downloadError ("HTTP error " ++ toString code ++ ": " ++ reason)

/-- Lines 136-165 of civitai_downloader.py: manual status dispatch on the
initial, non-error-processed response.  A redirect status is followed with
a plain `urllib.request.urlopen(redirect_url)` call (modelled by
`redirectFetch`; that call uses the default opener, so it raises
`HTTPError code` on a non-2xx status).  The filename derivation from the
redirect URL is not modelled.  A direct 404 raises the distinct
`File not found` message; any other non-200, non-redirect status raises
the generic message carrying the status code. -/
def dispatchStatus (initResp : HttpResponse) (redirectFetch : Except Nat HttpResponse) :
    Except PyExc HttpResponse :=
  if initResp.status = 301 ∨ initResp.status = 302 ∨ initResp.status = 303 ∨
      initResp.status = 307 ∨ initResp.status = 308 then
    match redirectFetch with
    | .ok r => .ok r
    | .error code => .error (.httpError code)
  else if initResp.status = 404 then
    .error (.downloadError "File not found")
  else if initResp.status ≠ 200 then
    .error (.downloadError ("Download failed with status " ++ toString initResp.status))
  else
    .ok initResp

/-- The cancellation event.  `some i` means the `asyncio.Event` is observed
set at the i-th cancellation check of the transfer loop (0-indexed);
`none` means it is never set during the transfer. -/
def cancelNow : Option Nat → Bool
  | some 0 => true
  | _ => false

/-- Advance the cancellation clock by one loop iteration; once set
(`some 0`) the event stays set. -/
def tickCancel : Option Nat → Option Nat
  | some (n + 1) => some n
  | other => other

/-- State of the transfer loop of `download_model` (lines 213-251): the
bytes written to the open file handle, the `downloaded` counter, the
`last_update` timestamp of the progress throttle, and the callback events
emitted so far. -/
structure LoopState where
  fileData : List Nat
  downloaded : Nat
  lastUpdate : Nat
  events : List ProgressEvent
deriving Repr, DecidableEq

/-- Lines 217-251 of civitai_downloader.py: the transfer loop.  Before
each read the cancellation event is checked; when set, the code raises
`DownloadError("Download cancelled by user")` (line 220) — a
`DownloadError`, not `asyncio.CancelledError`.  An empty read breaks the
loop.  After writing a chunk, the progress callback fires only when at
least one second has passed since `last_update` (the `or not buffer`
disjunct on line 237 is dead code: the loop has already broken by the time
the buffer is empty).  Returns the loop state at exit together with the
raised exception, if any; the file handle is closed in a `finally`, so the
written bytes persist in either case. -/
def chunkLoop (cancelAt : Option Nat) (chunks : List Chunk) (st : LoopState) :
    LoopState × Option PyExc :=
  if cancelNow cancelAt then
    (st, some (.downloadError "Download cancelled by user"))
  else
    match chunks with
    | [] => (st, none)
    | c :: rest =>
      if c.data.isEmpty then (st, none)
      else
        let downloaded := st.downloaded + c.data.length
        let fileData := st.fileData ++ c.data
        if st.lastUpdate + 1000 ≤ c.time then
          chunkLoop (tickCancel cancelAt) rest
            { fileData := fileData, downloaded := downloaded, lastUpdate := c.time,
              events := st.events ++ [.downloading downloaded c.time] }
        else
          chunkLoop (tickCancel cancelAt) rest
            { fileData := fileData, downloaded := downloaded, lastUpdate := st.lastUpdate,
              events := st.events }

/-- Lines 255-258 of civitai_downloader.py: post-transfer size check.
Python evaluates `if total_size and actual_size != total_size`, so an
advertised `Content-Length` of 0 is falsy and the mismatch check is
skipped entirely. -/
def verifyStep (totalSize : Option Nat) (actualSize : Nat) : Option PyExc :=
  if truthyOpt totalSize = true ∧ actualSize ≠ totalSize.getD 0 then
    some (.downloadError ("Download incomplete. Expected " ++ toString (totalSize.getD 0) ++
      " bytes, got " ++ toString actualSize ++ " bytes"))
  else none

/-- The environment of one `download_model` call, taken after URL
resolution: the initial response returned by `opener.open`, the outcomes
of the further `urllib.request.urlopen` calls the code may make (redirect
follow, Range request, fresh retry after a failed Range request), the
partial file already at the output path, the iteration at which the
cancellation event becomes set, and the wall-clock time at which the
transfer loop starts (the initial `last_update`). -/
structure DownloadEnv where
  initResp : HttpResponse
  redirectFetch : Except Nat HttpResponse
  rangeFetch : Except Unit HttpResponse
  retryFetch : Except Nat HttpResponse
  existingFile : Option (List Nat)
  cancelAt : Option Nat
  startTime : Nat
deriving Repr

/-- Observable outcome of one `download_model` call: the raised exception
or success, the content of the output file after the call (`none` when no
file exists there), the callback events in order, plus instrumentation of
the resume decision: the offset of the `Range: bytes=k-` header when a
range request was issued, and whether the file was opened in append mode
(`'ab'`) rather than truncate mode (`'wb'`).  `totalSize` is the
`total_size` variable read once from the dispatched response (line 168)
and used by the final verification. -/
structure DlState where
  result : Except PyExc Unit
  file : Option (List Nat)
  events : List ProgressEvent
  rangeOffset : Option Nat
  appendMode : Bool
  totalSize : Option Nat
deriving Repr

/-- Lines 206-268 of civitai_downloader.py: open the output file
(`'ab'` when `resume_pos > 0`, else `'wb'` which truncates), run the
transfer loop, verify the size, and emit the final `completed` callback on
success. -/
def runTransfer (env : DownloadEnv) (resumePos : Nat) (resp : HttpResponse)
    (preEvents : List ProgressEvent) (totalSize : Option Nat)
    (rangeOffset : Option Nat) : DlState :=
  match chunkLoop env.cancelAt resp.chunks
      { fileData := if 0 < resumePos then env.existingFile.getD [] else [],
        downloaded := resumePos, lastUpdate := env.startTime, events := preEvents } with
  | (st, some e) =>
    { result := .error e, file := some st.fileData, events := st.events,
      rangeOffset := rangeOffset, appendMode := decide (0 < resumePos),
      totalSize := totalSize }
  | (st, none) =>
    match verifyStep totalSize st.fileData.length with
    | some e =>
      { result := .error e, file := some st.fileData, events := st.events,
        rangeOffset := rangeOffset, appendMode := decide (0 < resumePos),
        totalSize := totalSize }
    | none =>
      { result := .ok (), file := some st.fileData,
        events := st.events ++ [ProgressEvent.completed],
        rangeOffset := rangeOffset, appendMode := decide (0 < resumePos),
        totalSize := totalSize }

/-- Lines 112-268 of civitai_downloader.py (`CivitAIDownloader.download_model`)
for an already-resolved download URL: status dispatch, resume decision,
transfer, verification.  Lines 180-204: when a partial file of size k
exists with `0 < k`, the advertised total is truthy and `k < total`, a
`Range: bytes=k-` request is issued.  If that `urlopen` returns a response
— with ANY status — `resume_pos` is kept and the file is opened in append
mode; only the `resuming` progress callback is conditioned on status 206.
Only when the `urlopen` raises does the bare `except:` reset `resume_pos`
to 0 and re-issue a plain request (whose own failure propagates).  In all
other cases no Range request is made and `resume_pos` keeps the existing
file size, so a pre-existing file is appended to. -/
def download_model (env : DownloadEnv) : DlState :=
  match dispatchStatus env.initResp env.redirectFetch with
  | .error e =>
    { result := .error e, file := env.existingFile, events := [],
      rangeOffset := none, appendMode := false, totalSize := none }
  | .ok resp =>
    if 0 < (env.existingFile.getD []).length ∧ truthyOpt resp.contentLength = true ∧
        (env.existingFile.getD []).length < resp.contentLength.getD 0 then
      match env.rangeFetch with
      | .ok r =>
        runTransfer env (env.existingFile.getD []).length r
          (if r.status = 206 then
            [ProgressEvent.resuming (env.existingFile.getD []).length] else [])
          resp.contentLength (some (env.existingFile.getD []).length)
      | .error _ =>
        match env.retryFetch with
        | .ok r2 => runTransfer env 0 r2 [] resp.contentLength
            (some (env.existingFile.getD []).length)
        | .error code =>
          { result := .error (.httpError code), file := env.existingFile, events := [],
            rangeOffset := some (env.existingFile.getD []).length, appendMode := false,
            totalSize := resp.contentLength }
    else
      runTransfer env (env.existingFile.getD []).length resp [] resp.contentLength none

/-- The integrity record of server.py (`_validate_model_file`), reduced to
the fields persisted in the sidecar that the claims mention. -/
structure IntegrityRecord where
  ok : Bool
  error : Option String
  sha256 : Option String
deriving Repr, DecidableEq

/-- server.py lines 1727-1748, `_validate_model_file`: the digest is
computed (modelled as the abstract input `digest`), then for a
`.safetensors` file the header is opened with `safe_open`; a parse failure
sets `ok := False` and records the error string, and nothing is raised.
The outer catch-all (a digest read failure) is not modelled. -/
def validate_model_file (isSafetensors : Bool) (digest : String)
    (headerParse : Except String Unit) : IntegrityRecord :=
  if isSafetensors then
    match headerParse with
    | .ok _ => { ok := true, error := none, sha256 := some digest }
    | .error e =>
      { ok := false, error := some ("safetensors error: " ++ e), sha256 := some digest }
  else { ok := true, error := none, sha256 := some digest }

/-- Terminal bookkeeping of a download session in the `downloads` table of
server.py: the final `status` string, the `error` field, the content of
the output file after the task ends, and the integrity record written by
the post-completion validation (when it ran). -/
structure SessionOutcome where
  status : String
  error : Option String
  file : Option (List Nat)
  integrity : Option IntegrityRecord
deriving Repr

/-- The string `str(e)` exposes for each exception. -/
def excMessage : PyExc → String
  | .downloadError m => m
  | .httpError code => "HTTP Error " ++ toString code
  | .cancelled m => m

/-- server.py lines 729-867, `download_civitai_model`: run
`CivitAIDownloader.download_model` and map its outcome into the
`downloads` table.  The `except asyncio.CancelledError` branch (line 841)
sets status `cancelled`, but it only catches a genuine task cancellation:
the token-triggered `DownloadError` raised inside `download_model` is an
`Exception` and lands in the generic handler (line 847), which sets status
`error`.  The partial-file cleanup on lines 854-858 can never delete
anything, because the local `file_path` is still `None` whenever
`download_model` raised; so the file on disk is whatever `download_model`
left there.  On success the integrity validation runs inside a best-effort
`try` and cannot change the status. -/
def download_civitai_model (env : DownloadEnv) (headerParse : Except String Unit)
    (isSafetensors : Bool) (digest : String) : SessionOutcome :=
  match (download_model env).result with
  | .ok _ =>
    { status := "completed", error := none, file := (download_model env).file,
      integrity := some (validate_model_file isSafetensors digest headerParse) }
  | .error (.cancelled _) =>
    { status := "cancelled", error := some "Download cancelled by user",
      file := (download_model env).file, integrity := none }
  | .error e =>
    { status := "error", error := some (excMessage e),
      file := (download_model env).file, integrity := none }

/-- server.py lines 935-945: the HuggingFace write loop.  The cancellation
token is checked inside the loop body, before each write, raising
`asyncio.CancelledError`; returns the bytes written and whether the loop
was cancelled. -/
def hfLoop (cancelAt : Option Nat) (chunks : List (List Nat)) (acc : List Nat) :
    List Nat × Bool :=
  match chunks with
  | [] => (acc, false)
  | c :: rest =>
    if cancelNow cancelAt then (acc, true)
    else hfLoop (tickCancel cancelAt) rest (acc ++ c)

/-- server.py lines 905-990, `download_huggingface_file`, reduced to
status, error and resulting file.  A non-200 status raises before the
output file is touched (the local `file_path` is still `None`, so the
cleanup cannot fire and any pre-existing file stays).  The file is opened
in `'wb'` mode.  The `except asyncio.CancelledError` handler (lines
963-968) sets status `cancelled` AND deletes the partial file.  The
best-effort metadata sidecar and the integrity check in the `finally`
block are not modelled. -/
def download_huggingface_file (existing : Option (List Nat)) (resp : HttpResponse)
    (cancelAt : Option Nat) : SessionOutcome :=
  if resp.status ≠ 200 then
    { status := "error",
      error := some ("Download failed with status " ++ toString resp.status),
      file := existing, integrity := none }
  else
    let out := hfLoop cancelAt (resp.chunks.map (fun c => c.data)) []
    if out.2 then
      { status := "cancelled", error := some "Download cancelled by user",
        file := none, integrity := none }
    else
      { status := "completed", error := none, file := some out.1, integrity := none }

/-- The registry state the cancel endpoint sees for one download id:
the status in the `downloads` table (`none` when the id is absent),
whether the id has an entry in `cancel_tokens`, and whether that token is
set. -/
structure CancelState where
  status : Option String
  hasToken : Bool
  tokenSet : Bool
deriving Repr, DecidableEq

/-- The response of the cancel endpoint: either an `HTTPException` with a
status code and detail, or the acknowledgment message of a 200 reply. -/
inductive CancelResponse where
  | httpException (code : Nat) (detail : String)
  | ack (message : String)
deriving Repr, DecidableEq

/-- server.py lines 1304-1319, `cancel_download`: 404 when the id is
unknown; an `HTTPException 400` whenever the status is not `pending` or
`downloading` (which includes every terminal status and also a repeated
cancel, since the first cancel moved the status to `cancelling`);
otherwise set the token and status `cancelling` when a token exists, else
acknowledge without touching anything. -/
def cancel_download (st : CancelState) : CancelResponse × CancelState :=
  match st.status with
  | none => (.httpException 404 "Download not found", st)
  | some s =>
    if ¬(s = "pending" ∨ s = "downloading") then
      (.httpException 400 "Download cannot be cancelled", st)
    else if st.hasToken then
      (.ack "Cancellation requested",
        { st with tokenSet := true, status := some "cancelling" })
    else
      (.ack "Download already completed or cancelled", st)

/-- server.py lines 602-625, `robust_http_request`: up to
`max_retries = 3` retries.  `outcome i` is what the i-th attempt yields
(`.error ()` models `aiohttp.ClientError` / `asyncio.TimeoutError`; any
HTTP status, including 5xx, comes back as `.ok resp` and only 429 is
retried).  The second component records the attempt indices after which a
backoff sleep of `base_delay * 2 ^ i` seconds plus uniform jitter ran.
The fuel argument counts the remaining iterations of
`for attempt in range(max_retries + 1)`.  Note: this helper is defined in
server.py but never called by any download path. -/
def robustGo (outcome : Nat → Except Unit HttpResponse) :
    Nat → Nat → List Nat → Except String HttpResponse × List Nat
  | 0, _, sleeps => (.error "Failed to complete request after 4 attempts", sleeps)
  | fuel + 1, attempt, sleeps =>
    match outcome attempt with
    | .ok resp =>
      if resp.status = 429 ∧ attempt < 3 then
        robustGo outcome fuel (attempt + 1) (sleeps ++ [attempt])
      else (.ok resp, sleeps)
    | .error _ =>
      if attempt < 3 then robustGo outcome fuel (attempt + 1) (sleeps ++ [attempt])
      else (.error "ClientError", sleeps)

/-- Entry point of `robust_http_request`: 4 loop iterations starting at
attempt 0 with no sleeps recorded. -/
def robust_http_request (outcome : Nat → Except Unit HttpResponse) :
    Except String HttpResponse × List Nat :=
  robustGo outcome 4 0 []

/-- The times of the `downloading` events in a callback trace. -/
def dwTimes : List ProgressEvent → List Nat
  | [] => []
  | .downloading _ t :: rest => t :: dwTimes rest
  | _ :: rest => dwTimes rest

/-- `spaced base ts` holds when every time in `ts` is at least 1000 ms
after the previous one, the first at least 1000 ms after `base`. -/
def spaced : Nat → List Nat → Bool
  | _, [] => true
  | base, t :: ts => decide (base + 1000 ≤ t) && spaced t ts

/-- Concatenation of the data of a chunk stream: the full response body. -/
def bodyBytes : List Chunk → List Nat
  | [] => []
  | c :: rest => c.data ++ bodyBytes rest

/-- The body of five 1-byte chunks used by the cancellation experiment. -/
def respC1 : HttpResponse :=
  { status := 200, contentLength := some 5,
    chunks := [{ data := [5], time := 10 }, { data := [5], time := 20 },
      { data := [5], time := 30 }, { data := [5], time := 40 },
      { data := [5], time := 50 }] }

/-- A CivitAI transfer of five 1-byte chunks with the cancellation token
observed set at the fourth check, after three chunks were written. -/
def envC1 : DownloadEnv :=
  { initResp := respC1,
    redirectFetch := .error 0, rangeFetch := .error (), retryFetch := .error 0,
    existingFile := none, cancelAt := some 3, startTime := 0 }

/-- An initial response with the given status and an empty body, for the
status-dispatch experiments. -/
def envStatus (s : Nat) : DownloadEnv :=
  { initResp := { status := s, contentLength := none, chunks := [] },
    redirectFetch := .error 0, rangeFetch := .error (), retryFetch := .error 0,
    existingFile := none, cancelAt := none, startTime := 0 }

/-- A full-content 200 answer (10 fresh bytes) to the Range request. -/
def rangeRespC3 : HttpResponse :=
  { status := 200, contentLength := some 10,
    chunks := [{ data := [2, 2, 2, 2, 2, 2, 2, 2, 2, 2], time := 0 }] }

/-- A partial file of 5 bytes, an advertised total of 10, and a Range
request that the server answers with a full-content 200 instead of 206. -/
def envC3 : DownloadEnv :=
  { initResp := { status := 200, contentLength := some 10, chunks := [] : HttpResponse },
    redirectFetch := .error 0,
    rangeFetch := .ok rangeRespC3,
    retryFetch := .error 0,
    existingFile := some [1, 1, 1, 1, 1], cancelAt := none, startTime := 0 }

/-- A pre-existing 5-byte file and a response advertising
`Content-Length: 0` with an empty body. -/
def envC4 : DownloadEnv :=
  { initResp := { status := 200, contentLength := some 0, chunks := [] },
    redirectFetch := .error 0, rangeFetch := .error (), retryFetch := .error 0,
    existingFile := some [9, 9, 9, 9, 9], cancelAt := none, startTime := 0 }

/-- A HuggingFace response of three 1-byte chunks, for the cancellation
experiments. -/
def hfRespC5 : HttpResponse :=
  { status := 200, contentLength := some 3,
    chunks := [{ data := [1], time := 0 }, { data := [2], time := 0 },
      { data := [3], time := 0 }] }

/-- Two chunks arriving 100 ms and 200 ms after the loop started. -/
def respC6 : HttpResponse :=
  { status := 200, contentLength := some 2,
    chunks := [{ data := [7], time := 100 }, { data := [8], time := 200 }] }

/-- A fresh transfer of two quick chunks, completing successfully. -/
def envC6 : DownloadEnv :=
  { initResp := respC6,
    redirectFetch := .error 0, rangeFetch := .error (), retryFetch := .error 0,
    existingFile := none, cancelAt := none, startTime := 0 }

/-- Three chunks at 1000 ms, 1500 ms and 2500 ms: the first and third
cross the one-second throttle, the second does not. -/
def respC6w : HttpResponse :=
  { status := 200, contentLength := some 3,
    chunks := [{ data := [1], time := 1000 }, { data := [2], time := 1500 },
      { data := [3], time := 2500 }] }

/-- A fresh transfer using `respC6w`, completing successfully with two
throttled in-loop updates. -/
def envC6w : DownloadEnv :=
  { initResp := respC6w,
    redirectFetch := .error 0, rangeFetch := .error (), retryFetch := .error 0,
    existingFile := none, cancelAt := none, startTime := 0 }

/-- The 200 response the third attempt of the retry scenario yields. -/
def respC7 : HttpResponse :=
  { status := 200, contentLength := some 1,
    chunks := [{ data := [1], time := 0 }] }

/-- An attempt sequence for `robust_http_request`: 429 on the first two
attempts, then 200 with a 1-byte body. -/
def outcomeC7 : Nat → Except Unit HttpResponse := fun i =>
  if i ≤ 1 then .ok { status := 429, contentLength := none, chunks := [] }
  else .ok respC7

/-- A one-chunk 200 response of a single byte. -/
def respC9 : HttpResponse :=
  { status := 200, contentLength := some 1,
    chunks := [{ data := [9], time := 0 }] }

/-- A successful one-chunk transfer whose post-completion header parse will
be made to fail. -/
def envC9 : DownloadEnv :=
  { initResp := respC9,
    redirectFetch := .error 0, rangeFetch := .error (), retryFetch := .error 0,
    existingFile := none, cancelAt := none, startTime := 0 }

/-- A 200 response advertising no Content-Length, delivering 2 bytes. -/
def respC10 : HttpResponse :=
  { status := 200, contentLength := none,
    chunks := [{ data := [7], time := 0 }, { data := [8], time := 0 }] }

/-- A 3-byte file already at the output path and a response that advertises
no total size, delivering 2 fresh bytes. -/
def envC10 : DownloadEnv :=
  { initResp := respC10,
    redirectFetch := .error 0, rangeFetch := .error (), retryFetch := .error 0,
    existingFile := some [1, 2, 3], cancelAt := none, startTime := 0 }

/-- A one-chunk 200 response advertising a total of 1 byte. -/
def respC4w : HttpResponse :=
  { status := 200, contentLength := some 1, chunks := [{ data := [4], time := 0 }] }

/-- A fresh successful one-chunk transfer advertising a total of 1 byte. -/
def envC4w : DownloadEnv :=
  { initResp := respC4w,
    redirectFetch := .error 0, rangeFetch := .error (), retryFetch := .error 0,
    existingFile := none, cancelAt := none, startTime := 0 }

lemma dwTimes_append (a b : List ProgressEvent) :
    dwTimes (a ++ b) = dwTimes a ++ dwTimes b := by
  induction a with
  | nil => simp [dwTimes]
  | cons e rest ih => cases e <;> simp [dwTimes, ih]

lemma cancelNow_none : cancelNow none = false := rfl

lemma tickCancel_none : tickCancel none = none := rfl

/-- The transfer loop only appends to the file: whatever state it starts
from, the bytes already written stay a prefix of the bytes on exit —
cancellation, in particular, never truncates the partial file. -/
lemma chunkLoop_fileData_extends (chunks : List Chunk) :
    ∀ (cancelAt : Option Nat) (st : LoopState),
      ∃ written, (chunkLoop cancelAt chunks st).1.fileData = st.fileData ++ written := by
  induction chunks with
  | nil =>
    intro cancelAt st
    refine ⟨[], ?_⟩
    rw [chunkLoop]
    by_cases h : cancelNow cancelAt = true <;> simp [h]
  | cons c rest ih =>
    intro cancelAt st
    rw [chunkLoop]
    by_cases hc : cancelNow cancelAt = true
    · exact ⟨[], by simp [hc]⟩
    · simp only [hc, Bool.false_eq_true, if_false]
      by_cases he : c.data.isEmpty = true
      · exact ⟨[], by simp [he]⟩
      · simp only [he, Bool.false_eq_true, if_false]
        by_cases ht : st.lastUpdate + 1000 ≤ c.time
        · simp only [ht, if_true]
          obtain ⟨w, hw⟩ := ih (tickCancel cancelAt)
            { fileData := st.fileData ++ c.data, downloaded := st.downloaded + c.data.length,
              lastUpdate := c.time, events := st.events ++ [.downloading (st.downloaded + c.data.length) c.time] }
          exact ⟨c.data ++ w, by simpa [List.append_assoc] using hw⟩
        · simp only [ht, if_false]
          obtain ⟨w, hw⟩ := ih (tickCancel cancelAt)
            { fileData := st.fileData ++ c.data, downloaded := st.downloaded + c.data.length,
              lastUpdate := st.lastUpdate, events := st.events }
          exact ⟨c.data ++ w, by simpa [List.append_assoc] using hw⟩

/-- With no cancellation and no empty chunk, the transfer loop consumes the
whole stream: it exits without an exception having appended exactly the
response body. -/
lemma chunkLoop_none_run (chunks : List Chunk) (hne : ∀ c ∈ chunks, c.data ≠ []) :
    ∀ st : LoopState,
      (chunkLoop none chunks st).2 = none ∧
      (chunkLoop none chunks st).1.fileData = st.fileData ++ bodyBytes chunks := by
  induction chunks with
  | nil => intro st; rw [chunkLoop]; simp [cancelNow_none, bodyBytes]
  | cons c rest ih =>
    intro st
    have hc : c.data ≠ [] := hne c (List.mem_cons_self c rest)
    have hrest : ∀ x ∈ rest, x.data ≠ [] := fun x hx => hne x (List.mem_cons_of_mem c hx)
    rw [chunkLoop]
    simp only [cancelNow_none, Bool.false_eq_true, if_false]
    have he : c.data.isEmpty = false := by
      cases hdat : c.data with
      | nil => exact absurd hdat hc
      | cons a l => simp [List.isEmpty]
    simp only [he, Bool.false_eq_true, if_false]
    by_cases ht : st.lastUpdate + 1000 ≤ c.time
    · simp only [ht, if_true, tickCancel_none]
      obtain ⟨h1, h2⟩ := ih hrest
        { fileData := st.fileData ++ c.data, downloaded := st.downloaded + c.data.length,
          lastUpdate := c.time, events := st.events ++ [.downloading (st.downloaded + c.data.length) c.time] }
      exact ⟨h1, by simpa [bodyBytes, List.append_assoc] using h2⟩
    · simp only [ht, if_false, tickCancel_none]
      obtain ⟨h1, h2⟩ := ih hrest
        { fileData := st.fileData ++ c.data, downloaded := st.downloaded + c.data.length,
          lastUpdate := st.lastUpdate, events := st.events }
      exact ⟨h1, by simpa [bodyBytes, List.append_assoc] using h2⟩

/-- The throttle invariant of the transfer loop: the `downloading` events
it adds to the trace carry timestamps that are pairwise at least one
second apart, the first at least one second after the `last_update` value
the loop started from. -/
lemma chunkLoop_spaced (chunks : List Chunk) :
    ∀ (cancelAt : Option Nat) (st : LoopState),
      ∃ ts, dwTimes (chunkLoop cancelAt chunks st).1.events = dwTimes st.events ++ ts ∧
        spaced st.lastUpdate ts = true := by
  induction chunks with
  | nil =>
    intro cancelAt st
    refine ⟨[], ?_, rfl⟩
    rw [chunkLoop]
    by_cases h : cancelNow cancelAt = true <;> simp [h]
  | cons c rest ih =>
    intro cancelAt st
    rw [chunkLoop]
    by_cases hc : cancelNow cancelAt = true
    · exact ⟨[], by simp [hc], rfl⟩
    · simp only [hc, Bool.false_eq_true, if_false]
      by_cases he : c.data.isEmpty = true
      · exact ⟨[], by simp [he], rfl⟩
      · simp only [he, Bool.false_eq_true, if_false]
        by_cases ht : st.lastUpdate + 1000 ≤ c.time
        · simp only [ht, if_true]
          obtain ⟨ts, h1, h2⟩ := ih (tickCancel cancelAt)
            { fileData := st.fileData ++ c.data, downloaded := st.downloaded + c.data.length,
              lastUpdate := c.time, events := st.events ++ [.downloading (st.downloaded + c.data.length) c.time] }
          refine ⟨c.time :: ts, ?_, ?_⟩
          · rw [h1, dwTimes_append]
            simp [dwTimes]
          · simp [spaced, ht, h2]
        · simp only [ht, if_false]
          obtain ⟨ts, h1, h2⟩ := ih (tickCancel cancelAt)
            { fileData := st.fileData ++ c.data, downloaded := st.downloaded + c.data.length,
              lastUpdate := st.lastUpdate, events := st.events }
          exact ⟨ts, h1, h2⟩

lemma dispatchStatus_200 (resp : HttpResponse) (rf : Except Nat HttpResponse)
    (h : resp.status = 200) : dispatchStatus resp rf = .ok resp := by
  simp [dispatchStatus, h]

lemma runTransfer_totalSize (env : DownloadEnv) (rp : Nat) (resp : HttpResponse)
    (pre : List ProgressEvent) (total : Option Nat) (ro : Option Nat) :
    (runTransfer env rp resp pre total ro).totalSize = total := by
  unfold runTransfer
  split
  · rfl
  · split <;> rfl

/-- When the transfer returns successfully and the advertised total was a
nonzero `some n`, the size verification forces the final file to have
exactly n bytes. -/
lemma runTransfer_ok_size (env : DownloadEnv) (rp : Nat) (resp : HttpResponse)
    (pre : List ProgressEvent) (total : Option Nat) (ro : Option Nat) (n : Nat)
    (hn : n ≠ 0) (ht : total = some n)
    (hok : (runTransfer env rp resp pre total ro).result = .ok ()) :
    ∃ content, (runTransfer env rp resp pre total ro).file = some content ∧
      content.length = n := by
  unfold runTransfer at hok ⊢
  split at hok
  · simp at hok
  · rename_i st hsplit
    split at hok
    · simp at hok
    · rename_i hverify
      refine ⟨st.fileData, rfl, ?_⟩
      by_contra hne
      have : verifyStep total st.fileData.length ≠ none := by
        subst ht
        simp [verifyStep, truthyOpt, hn, hne]
      exact this hverify

/-- Every run of `download_model` either raises before the transfer starts
(status dispatch, or a failed retry after a failed Range request) or is
one invocation of `runTransfer`. -/
lemma download_model_cases (env : DownloadEnv) :
    (∃ e, (download_model env).result = .error e) ∨
    (∃ rp r pre total ro, download_model env = runTransfer env rp r pre total ro) := by
  unfold download_model
  rcases hd : dispatchStatus env.initResp env.redirectFetch with e | resp
  · exact .inl ⟨e, rfl⟩
  · dsimp only
    by_cases hcond : 0 < (env.existingFile.getD []).length ∧
        truthyOpt resp.contentLength = true ∧
        (env.existingFile.getD []).length < resp.contentLength.getD 0
    · rw [if_pos hcond]
      rcases hr : env.rangeFetch with u | r
      · rcases hrf : env.retryFetch with code | r2
        · exact .inl ⟨.httpError code, rfl⟩
        · exact .inr ⟨0, r2, [], resp.contentLength,
            some (env.existingFile.getD []).length, rfl⟩
      · exact .inr ⟨(env.existingFile.getD []).length, r,
          (if r.status = 206 then
            [ProgressEvent.resuming (env.existingFile.getD []).length] else []),
          resp.contentLength, some (env.existingFile.getD []).length, rfl⟩
    · rw [if_neg hcond]
      exact .inr ⟨(env.existingFile.getD []).length, resp, [], resp.contentLength, none, rfl⟩

/-- The throttle property lifted to one `runTransfer` invocation: provided
the pre-loop trace holds no `downloading` event, every `downloading` event
of the final trace is at least one second after the previous one (the
first at least one second after the loop start), and a successful run ends
the trace with the unconditional `completed` callback. -/
lemma runTransfer_spaced (env : DownloadEnv) (rp : Nat) (resp : HttpResponse)
    (pre : List ProgressEvent) (total : Option Nat) (ro : Option Nat)
    (hpre : dwTimes pre = []) :
    spaced env.startTime (dwTimes (runTransfer env rp resp pre total ro).events) = true ∧
    ((runTransfer env rp resp pre total ro).result = .ok () →
      ∃ es, (runTransfer env rp resp pre total ro).events = es ++ [ProgressEvent.completed]) := by
  obtain ⟨ts, h1, h2⟩ := chunkLoop_spaced resp.chunks env.cancelAt
    { fileData := if 0 < rp then env.existingFile.getD [] else [],
      downloaded := rp, lastUpdate := env.startTime, events := pre }
  rw [hpre] at h1
  simp only [List.nil_append] at h1
  unfold runTransfer
  split
  · rename_i st e hsplit
    rw [hsplit] at h1
    exact ⟨by simpa using h1 ▸ h2, by intro h; simp at h⟩
  · rename_i st hsplit
    rw [hsplit] at h1
    split
    · exact ⟨by simpa using h1 ▸ h2, by intro h; simp at h⟩
    · constructor
      · show spaced env.startTime (dwTimes (st.events ++ [ProgressEvent.completed])) = true
        rw [dwTimes_append]
        simpa [dwTimes] using h1 ▸ h2
      · exact fun _ => ⟨st.events, rfl⟩

lemma runTransfer_rangeOffset (env : DownloadEnv) (rp : Nat) (resp : HttpResponse)
    (pre : List ProgressEvent) (total : Option Nat) (ro : Option Nat) :
    (runTransfer env rp resp pre total ro).rangeOffset = ro := by
  unfold runTransfer
  split
  · rfl
  · split <;> rfl

lemma runTransfer_appendMode (env : DownloadEnv) (rp : Nat) (resp : HttpResponse)
    (pre : List ProgressEvent) (total : Option Nat) (ro : Option Nat) :
    (runTransfer env rp resp pre total ro).appendMode = decide (0 < rp) := by
  unfold runTransfer
  split
  · rfl
  · split <;> rfl

lemma runTransfer_file_eq (env : DownloadEnv) (rp : Nat) (resp : HttpResponse)
    (pre : List ProgressEvent) (total : Option Nat) (ro : Option Nat) :
    (runTransfer env rp resp pre total ro).file =
      some (chunkLoop env.cancelAt resp.chunks
        { fileData := if 0 < rp then env.existingFile.getD [] else [],
          downloaded := rp, lastUpdate := env.startTime, events := pre }).1.fileData := by
  unfold runTransfer
  split
  · rename_i st e hsplit
    rw [hsplit]
  · rename_i st hsplit
    split
    · rw [hsplit]
    · rw [hsplit]

/-- C1: the claim says a session whose cancellation token is set
mid-transfer reaches the terminal status `cancelled` with no exception
surfaced as an error state.  The code disagrees: the token check in
`download_model` raises `DownloadError("Download cancelled by user")`,
which is an `Exception` and is therefore caught by the generic handler of
`download_civitai_model`, not by its `except asyncio.CancelledError`
branch — the session ends with status `error` and the exception message
surfaced in the `error` field.  Evaluated here on a five-chunk transfer
with the token observed set after three chunks. -/
theorem c1_cancel_token_yields_error_status :
    (download_civitai_model envC1 (.ok ()) true "digest").status = "error" ∧
    (download_civitai_model envC1 (.ok ()) true "digest").error =
      some "Download cancelled by user" ∧
    (download_model envC1).result =
      .error (.downloadError "Download cancelled by user") ∧
    (download_model envC1).file = some [5, 5, 5] := by
  refine ⟨rfl, rfl, rfl, rfl⟩

/-- C2: the claim says 401/403/404/429 fail with distinct errors and any
other non-2xx with a generic error carrying the status.  In the code the
distinct 401/403/429 handlers live in the `except urllib.error.HTTPError`
branch, which is unreachable because the `NoRedirection` opener disables
urllib error processing; those statuses fall through to the generic
line-165 message instead.  Only 404 gets a distinct message (line 163).
The last three conjuncts record the unreachable intended mapping. -/
theorem c2_distinct_http_errors_unreachable :
    (download_model (envStatus 401)).result =
      .error (.downloadError "Download failed with status 401") ∧
    (download_model (envStatus 403)).result =
      .error (.downloadError "Download failed with status 403") ∧
    (download_model (envStatus 429)).result =
      .error (.downloadError "Download failed with status 429") ∧
    (download_model (envStatus 404)).result =
      .error (.downloadError "File not found") ∧
    (download_model (envStatus 500)).result =
      .error (.downloadError "Download failed with status 500") ∧
    httpErrorBranch 401 "Unauthorized" =
      .downloadError "Authentication required. Please provide a valid API token." ∧
    httpErrorBranch 403 "Forbidden" =
      .downloadError "Access forbidden. The model might require special permissions." ∧
    httpErrorBranch 429 "Too Many Requests" =
      .downloadError "Rate limited. Please wait before trying again." := by
  refine ⟨rfl, rfl, rfl, rfl, rfl, rfl, rfl, rfl⟩

/-- C9: for every completed download whose safetensors header fails to
parse during integrity verification, the integrity record is written with
`ok := false` and the parse error recorded, while the session status stays
`completed` — verification failure never turns a completed session into an
error. -/
theorem c9_integrity_advisory (env : DownloadEnv) (e : String) (dg : String)
    (hok : (download_model env).result = .ok ()) :
    (download_civitai_model env (.error e) true dg).status = "completed" ∧
    (download_civitai_model env (.error e) true dg).integrity =
      some { ok := false,
             error := some ("safetensors error: " ++ e),
             sha256 := some dg } := by
  unfold download_civitai_model
  rw [hok]
  exact ⟨rfl, rfl⟩

/-- C9 witness: a concrete successful one-chunk download whose header
parse fails with `header truncated`. -/
theorem c9_witness :
    (download_civitai_model envC9 (.error "header truncated") true "abc123").status =
      "completed" ∧
    (download_civitai_model envC9 (.error "header truncated") true "abc123").integrity =
      some { ok := false,
             error := some ("safetensors error: " ++ "header truncated"),
             sha256 := some "abc123" } :=
  c9_integrity_advisory envC9 "header truncated" "abc123" rfl

/-- C10: in the CivitAI download path, when a file already exists at the
output path and the remote either advertises no (truthy) total size or the
existing size is at least the advertised total, no Range request is issued
yet the file is opened in append mode, so the full response body lands
after the existing bytes and the resulting file is strictly larger than
the remote content. -/
theorem c10_append_after_existing (env : DownloadEnv) (content : List Nat)
    (h200 : env.initResp.status = 200)
    (hex : env.existingFile = some content) (h0 : content ≠ [])
    (hsz : env.initResp.contentLength = none ∨
      ∃ n, env.initResp.contentLength = some n ∧ n ≤ content.length)
    (hcancel : env.cancelAt = none)
    (hne : ∀ c ∈ env.initResp.chunks, c.data ≠ []) :
    (download_model env).rangeOffset = none ∧
    (download_model env).appendMode = true ∧
    (download_model env).file = some (content ++ bodyBytes env.initResp.chunks) ∧
    (bodyBytes env.initResp.chunks).length <
      (content ++ bodyBytes env.initResp.chunks).length := by
  have hd := dispatchStatus_200 env.initResp env.redirectFetch h200
  have hlen : (env.existingFile.getD []).length = content.length := by rw [hex]; rfl
  have hpos : 0 < content.length := List.length_pos.mpr h0
  have hcond : ¬(0 < (env.existingFile.getD []).length ∧
      truthyOpt env.initResp.contentLength = true ∧
      (env.existingFile.getD []).length < env.initResp.contentLength.getD 0) := by
    rcases hsz with h | ⟨n, hn, hle⟩
    · rw [h]; rintro ⟨-, htr, -⟩; simp [truthyOpt] at htr
    · rw [hn]; rintro ⟨-, -, hlt⟩
      rw [hlen] at hlt
      simp only [Option.getD_some] at hlt
      omega
  have hmain : download_model env =
      runTransfer env (env.existingFile.getD []).length env.initResp []
        env.initResp.contentLength none := by
    unfold download_model
    rw [hd]
    dsimp only
    rw [if_neg hcond]
  rw [hmain]
  refine ⟨runTransfer_rangeOffset env _ env.initResp [] env.initResp.contentLength none,
    ?_, ?_, ?_⟩
  · rw [runTransfer_appendMode]
    simp only [decide_eq_true_eq]
    omega
  · rw [runTransfer_file_eq]
    have hif : (if 0 < (env.existingFile.getD []).length then env.existingFile.getD []
        else []) = content := by
      rw [if_pos (by omega), hex]; rfl
    rw [hif, hcancel]
    obtain ⟨-, h2⟩ := chunkLoop_none_run env.initResp.chunks hne
      { fileData := content, downloaded := (env.existingFile.getD []).length,
        lastUpdate := env.startTime, events := [] }
    rw [h2]
  · rw [List.length_append]
    omega

/-- C10 witness: a 3-byte existing file `[1, 2, 3]`, a 200 response with
no Content-Length delivering the 2 bytes `[7, 8]`: no Range request,
append mode, resulting file `[1, 2, 3, 7, 8]`. -/
theorem c10_witness :
    (download_model envC10).rangeOffset = none ∧
    (download_model envC10).appendMode = true ∧
    (download_model envC10).file = some ([1, 2, 3] ++ bodyBytes envC10.initResp.chunks) ∧
    (bodyBytes envC10.initResp.chunks).length <
      (([1, 2, 3] : List Nat) ++ bodyBytes envC10.initResp.chunks).length :=
  c10_append_after_existing envC10 [1, 2, 3] rfl rfl (by decide)
    (Or.inl rfl) rfl (by decide)

/-- C3 counterexample: a 5-byte partial file, advertised total 10, and a
server that answers the Range request with a full-content 200 rather than
206.  The claim says the resume offset is then discarded and the file is
rewritten from the beginning; the code instead keeps the offset, opens the
file in append mode, and appends the full 10-byte body after the 5 old
bytes. -/
theorem c3_counterexample :
    envC3.rangeFetch = .ok rangeRespC3 ∧
    rangeRespC3.status = 200 ∧
    (download_model envC3).rangeOffset = some 5 ∧
    (download_model envC3).appendMode = true ∧
    (download_model envC3).file =
      some [1, 1, 1, 1, 1, 2, 2, 2, 2, 2, 2, 2, 2, 2, 2] := by
  refine ⟨rfl, rfl, rfl, rfl, rfl⟩

/-- C3 amended: when a partial file of size k with 0 < k exists and the
dispatched response advertises a total n with k < n, a Range request
`bytes=k-` is issued; but the resume offset is discarded (truncate mode)
exactly when that request raises an exception — any non-exception answer,
206 or not, keeps the offset and append mode. -/
theorem c3_amended (env : DownloadEnv) (n : Nat)
    (h200 : env.initResp.status = 200)
    (hcl : env.initResp.contentLength = some n)
    (hk : 0 < (env.existingFile.getD []).length)
    (hlt : (env.existingFile.getD []).length < n) :
    (download_model env).rangeOffset = some (env.existingFile.getD []).length ∧
    (∀ r, env.rangeFetch = .ok r → (download_model env).appendMode = true) ∧
    (env.rangeFetch = .error () → (download_model env).appendMode = false) := by
  have hd := dispatchStatus_200 env.initResp env.redirectFetch h200
  have hcond : 0 < (env.existingFile.getD []).length ∧
      truthyOpt env.initResp.contentLength = true ∧
      (env.existingFile.getD []).length < env.initResp.contentLength.getD 0 := by
    refine ⟨hk, ?_, ?_⟩
    · rw [hcl]; simp [truthyOpt]; omega
    · rw [hcl]; simpa using hlt
  have hmain : download_model env =
      match env.rangeFetch with
      | .ok r =>
        runTransfer env (env.existingFile.getD []).length r
          (if r.status = 206 then
            [ProgressEvent.resuming (env.existingFile.getD []).length] else [])
          env.initResp.contentLength (some (env.existingFile.getD []).length)
      | .error _ =>
        match env.retryFetch with
        | .ok r2 => runTransfer env 0 r2 [] env.initResp.contentLength
            (some (env.existingFile.getD []).length)
        | .error code =>
          { result := .error (.httpError code), file := env.existingFile, events := [],
            rangeOffset := some (env.existingFile.getD []).length, appendMode := false,
            totalSize := env.initResp.contentLength } := by
    unfold download_model
    rw [hd]
    dsimp only
    rw [if_pos hcond]
  rw [hmain]
  rcases hr : env.rangeFetch with u | r
  · rcases hrf : env.retryFetch with code | r2
    · refine ⟨rfl, ?_, fun _ => rfl⟩
      intro r h
      simp at h
    · refine ⟨runTransfer_rangeOffset env 0 r2 [] env.initResp.contentLength _, ?_, ?_⟩
      · intro r h
        simp at h
      · intro h
        rw [runTransfer_appendMode]
        simp
  · refine ⟨runTransfer_rangeOffset env _ r _ env.initResp.contentLength _, ?_, ?_⟩
    · intro r2 h
      rw [runTransfer_appendMode]
      simp only [decide_eq_true_eq]
      omega
    · intro h
      simp at h

/-- C3 witness: the amended theorem applied to the concrete environment of
the counterexample (Range request answered, offset kept). -/
theorem c3_witness :
    (download_model envC3).rangeOffset = some 5 ∧
    (download_model envC3).appendMode = true := by
  have h := c3_amended envC3 10 rfl rfl (by decide) (by decide)
  exact ⟨h.1, h.2.1 rangeRespC3 rfl⟩

/-- C4 counterexample: a session that completes with a known advertised
total of 0 bytes while the persisted file holds 5 bytes.  Python treats
the advertised 0 as falsy, so the mismatch check is skipped, no
incomplete-transfer error is raised, and the session completes with
`actual size != expected size`. -/
theorem c4_counterexample :
    (download_civitai_model envC4 (.ok ()) false "d").status = "completed" ∧
    (download_model envC4).totalSize = some 0 ∧
    (download_model envC4).file = some [9, 9, 9, 9, 9] := by
  refine ⟨rfl, rfl, rfl⟩

/-- C4 amended: for every session that completes with a known NONZERO
advertised total n, the persisted file has exactly n bytes; and the
verification step rejects any other size with the incomplete-transfer
error.  (With an advertised total of 0 the check is skipped because 0 is
falsy in Python.) -/
theorem c4_amended (env : DownloadEnv) (n : Nat) (hn : n ≠ 0)
    (hok : (download_model env).result = .ok ())
    (ht : (download_model env).totalSize = some n) :
    (∃ content, (download_model env).file = some content ∧ content.length = n) ∧
    (∀ m, m ≠ n → verifyStep (some n) m =
      some (.downloadError ("Download incomplete. Expected " ++ toString n ++
        " bytes, got " ++ toString m ++ " bytes"))) := by
  constructor
  · rcases download_model_cases env with ⟨e, he⟩ | ⟨rp, r, pre, total, ro, heq⟩
    · rw [he] at hok; simp at hok
    · rw [heq] at hok ht ⊢
      rw [runTransfer_totalSize] at ht
      exact runTransfer_ok_size env rp r pre total ro n hn ht hok
  · intro m hm
    simp [verifyStep, truthyOpt, hn, hm]

/-- C4 witness: a fresh one-chunk download advertising 1 byte, completing
with a 1-byte file. -/
theorem c4_witness :
    (∃ content, (download_model envC4w).file = some content ∧ content.length = 1) ∧
    (∀ m, m ≠ 1 → verifyStep (some 1) m =
      some (.downloadError ("Download incomplete. Expected " ++ toString 1 ++
        " bytes, got " ++ toString m ++ " bytes"))) :=
  c4_amended envC4w 1 (by decide) rfl rfl

/-- C5 counterexample: a HuggingFace session cancelled after two of three
chunks were written reaches status `cancelled` but its handler deletes the
partial file (server.py lines 963-968), so the partial bytes are NOT left
on disk for resume, contradicting the claim. -/
theorem c5_counterexample :
    hfLoop (some 2) (hfRespC5.chunks.map (fun c => c.data)) [] = ([1, 2], true) ∧
    (download_huggingface_file none hfRespC5 (some 2)).status = "cancelled" ∧
    (download_huggingface_file none hfRespC5 (some 2)).file = none := by
  refine ⟨rfl, rfl, rfl⟩

/-- C5 amended: cancellation never truncates already-written bytes (the
transfer loop only ever appends), and the CivitAI session path leaves the
output file exactly as `download_model` left it in every outcome,
cancellation included; the HuggingFace path, however, deletes the partial
file whenever it ends cancelled. -/
theorem c5_amended :
    (∀ (cancelAt : Option Nat) (chunks : List Chunk) (st : LoopState),
      ∃ written, (chunkLoop cancelAt chunks st).1.fileData = st.fileData ++ written) ∧
    (∀ (env : DownloadEnv) (p : Except String Unit) (sf : Bool) (dg : String),
      (download_civitai_model env p sf dg).file = (download_model env).file) ∧
    (∀ (ex : Option (List Nat)) (resp : HttpResponse) (cancelAt : Option Nat),
      (download_huggingface_file ex resp cancelAt).status = "cancelled" →
      (download_huggingface_file ex resp cancelAt).file = none) := by
  refine ⟨?_, ?_, ?_⟩
  · intro cancelAt chunks st
    exact chunkLoop_fileData_extends chunks cancelAt st
  · intro env p sf dg
    unfold download_civitai_model
    rcases h : (download_model env).result with e | u
    · cases e <;> rfl
    · rfl
  · intro ex resp cancelAt
    unfold download_huggingface_file
    by_cases hs : resp.status ≠ 200
    · rw [if_pos hs]
      intro h
      simp at h
    · rw [if_neg hs]
      dsimp only
      by_cases hcan : (hfLoop cancelAt (resp.chunks.map (fun c => c.data)) []).2 = true
      · rw [if_pos hcan]
        intro
        rfl
      · rw [if_neg hcan]
        intro h
        simp at h

/-- C5 witness: the HuggingFace deletion branch of the amended theorem at
a concrete cancelled session that had a pre-existing file. -/
theorem c5_witness :
    (download_huggingface_file (some [7]) hfRespC5 (some 1)).file = none :=
  c5_amended.2.2 (some [7]) hfRespC5 (some 1) rfl

/-- C6 counterexample: a transfer of two chunks arriving 100 ms and
200 ms after the loop start completes successfully with NO `downloading`
callback at all — the very first per-chunk progress update is suppressed
by the throttle, contradicting the claim that the first update is always
emitted; the only callback is the unconditional final `completed`. -/
theorem c6_counterexample :
    (download_model envC6).result = .ok () ∧
    (download_model envC6).file = some [7, 8] ∧
    (download_model envC6).events = [ProgressEvent.completed] := by
  refine ⟨rfl, rfl, rfl⟩

/-- C6 amended: in-loop progress callbacks are throttled with no
exception for the first — a `downloading` update fires only when at least
one second has passed since the previous one (or since the loop start) —
and a successful transfer always ends its callback trace with the
unconditional `completed` update. -/
theorem c6_amended (env : DownloadEnv) :
    spaced env.startTime (dwTimes (download_model env).events) = true ∧
    ((download_model env).result = .ok () →
      ∃ es, (download_model env).events = es ++ [ProgressEvent.completed]) := by
  unfold download_model
  rcases hd : dispatchStatus env.initResp env.redirectFetch with e | resp
  · refine ⟨rfl, ?_⟩
    intro h
    simp at h
  · dsimp only
    by_cases hcond : 0 < (env.existingFile.getD []).length ∧
        truthyOpt resp.contentLength = true ∧
        (env.existingFile.getD []).length < resp.contentLength.getD 0
    · rw [if_pos hcond]
      rcases hr : env.rangeFetch with u | r
      · rcases hrf : env.retryFetch with code | r2
        · refine ⟨rfl, ?_⟩
          intro h
          simp at h
        · exact runTransfer_spaced env 0 r2 [] resp.contentLength
            (some (env.existingFile.getD []).length) rfl
      · refine runTransfer_spaced env (env.existingFile.getD []).length r _
          resp.contentLength (some (env.existingFile.getD []).length) ?_
        by_cases h206 : r.status = 206 <;> simp [h206, dwTimes]
    · rw [if_neg hcond]
      exact runTransfer_spaced env (env.existingFile.getD []).length resp []
        resp.contentLength none rfl

/-- C6 witness: a successful three-chunk transfer (chunks at 1000, 1500
and 2500 ms) whose trace is throttled and ends with `completed`. -/
theorem c6_witness :
    spaced 0 (dwTimes (download_model envC6w).events) = true ∧
    (∃ es, (download_model envC6w).events = es ++ [ProgressEvent.completed]) := by
  have h := c6_amended envC6w
  exact ⟨h.1, h.2 rfl⟩

/-- C7 counterexample: in the CivitAI download path a 429 response
terminates the session as a user-visible error on the very first attempt;
no retry is performed, so the claimed two-429s-then-200 scenario cannot
succeed. -/
theorem c7_counterexample :
    (download_civitai_model (envStatus 429) (.error "x") true "dg").status = "error" ∧
    (download_civitai_model (envStatus 429) (.error "x") true "dg").error =
      some "Download failed with status 429" := by
  refine ⟨rfl, rfl⟩

/-- C7 amended: the retry policy exists only in the helper
`robust_http_request` — which retries 429, timeouts and connection errors
up to three times with backoff sleeps after attempts 0 and 1, so a
429/429/200 sequence yields the 200 — but that helper is never called by
a download path: in the CivitAI session a 429 terminates the session as
`error` with no retry. -/
theorem c7_amended (outcome : Nat → Except Unit HttpResponse) (resp : HttpResponse)
    (env : DownloadEnv) (p : Except String Unit) (sf : Bool) (dg : String)
    (h0 : ∃ r0, outcome 0 = .ok r0 ∧ r0.status = 429)
    (h1 : ∃ r1, outcome 1 = .ok r1 ∧ r1.status = 429)
    (h2 : outcome 2 = .ok resp) (hs : resp.status = 200)
    (henv : env.initResp.status = 429) :
    robust_http_request outcome = (.ok resp, [0, 1]) ∧
    (download_civitai_model env p sf dg).status = "error" := by
  obtain ⟨r0, e0, s0⟩ := h0
  obtain ⟨r1, e1, s1⟩ := h1
  constructor
  · simp [robust_http_request, robustGo, e0, s0, e1, s1, h2, hs]
  · have hd : dispatchStatus env.initResp env.redirectFetch =
        .error (.downloadError ("Download failed with status " ++
          toString env.initResp.status)) := by
      simp [dispatchStatus, henv]
    have hres : (download_model env).result =
        .error (.downloadError ("Download failed with status " ++
          toString env.initResp.status)) := by
      unfold download_model
      rw [hd]
    unfold download_civitai_model
    rw [hres]

/-- C7 witness: the amended theorem at the concrete 429/429/200 attempt
sequence and a concrete 429 CivitAI session. -/
theorem c7_witness :
    robust_http_request outcomeC7 = (.ok respC7, [0, 1]) ∧
    (download_civitai_model (envStatus 429) (.ok ()) false "d").status = "error" := by
  refine c7_amended outcomeC7 respC7 (envStatus 429) (.ok ()) false "d"
    ⟨_, rfl, rfl⟩ ⟨_, rfl, rfl⟩ rfl rfl rfl

/-- C8 counterexample: cancelling a session whose status is `completed`
does not return an acknowledgment — the endpoint raises
`HTTPException 400 "Download cannot be cancelled"` and the claim that
cancel is a no-op acknowledgment on terminal sessions fails. -/
theorem c8_counterexample :
    cancel_download { status := some "completed", hasToken := false, tokenSet := false } =
      (.httpException 400 "Download cannot be cancelled",
        { status := some "completed", hasToken := false, tokenSet := false }) := rfl

/-- C8 amended: for a known session, cancel fails with HTTP 400 whenever
the status is not `pending` or `downloading` (terminal states included,
and a second cancel, since the first moved the status to `cancelling`);
for a pending/downloading session it sets the token and status
`cancelling` when a token exists, and otherwise acknowledges without
changing anything. -/
theorem c8_amended (st : CancelState) (s : String) (hs : st.status = some s) :
    (¬(s = "pending" ∨ s = "downloading") →
      cancel_download st = (.httpException 400 "Download cannot be cancelled", st)) ∧
    ((s = "pending" ∨ s = "downloading") → st.hasToken = true →
      cancel_download st = (.ack "Cancellation requested",
        { st with tokenSet := true, status := some "cancelling" })) ∧
    ((s = "pending" ∨ s = "downloading") → st.hasToken = false →
      cancel_download st = (.ack "Download already completed or cancelled", st)) := by
  unfold cancel_download
  rw [hs]
  dsimp only
  refine ⟨?_, ?_, ?_⟩
  · intro h
    rw [if_pos h]
  · intro h htok
    rw [if_neg (not_not_intro h), if_pos htok]
  · intro h htok
    rw [if_neg (not_not_intro h), if_neg (by simp [htok])]

/-- C8 witness: the amended theorem at a concrete downloading session with
a live token: the token is set and the status becomes `cancelling`. -/
theorem c8_witness :
    cancel_download { status := some "downloading", hasToken := true, tokenSet := false } =
      (.ack "Cancellation requested",
        { status := some "cancelling", hasToken := true, tokenSet := true }) :=
  (c8_amended { status := some "downloading", hasToken := true, tokenSet := false }
    "downloading" rfl).2.1 (Or.inr rfl) rfl
